import Mathlib

/-!
Shallow embedding of `kdmapi-rs` (`src/src/lib.rs`): dynamic bindings to the
KDMAPI driver interface of OmniMIDI.  The mutable state of the library is the
single atomic flag `is_stream_open` inside `KDMAPIBinds`; every other field of
the binding table is an immutable resolved symbol.  Calls into the driver are
recorded as an explicit event trace, and the driver itself is modelled as a
record of response values, one per entry point.
-/

set_option autoImplicit false

namespace KdmapiRs

/-- The `cfg(target_os)` alternatives that appear in the source. -/
inductive OS where
  | windows
  | linux
  | macos
deriving DecidableEq

/-- The resolved driver entry points of `KDMAPIBinds` (everything except the
`is_stream_open` flag): each field gives the driver's response behaviour for
one foreign function.  `InitializeKDMAPIStream` and `TerminateKDMAPIStream`
return `i32` (modelled as `Int`); the data-send entry points map a `u32` word
to a `u32` response (modelled as `Nat`, bounded by `2^32` where it matters);
the soundfont loader receives a raw buffer, modelled as the list of code units
/ bytes that sit at the forwarded pointer. -/
structure Driver where
  isKDMAPIAvailable : Bool
  initializeKDMAPIStream : Int
  terminateKDMAPIStream : Int
  sendDirectData : Nat → Nat
  sendDirectDataNoBuf : Nat → Nat
  loadCustomSoundFontsList : List Nat → Bool

/-- One call across the foreign boundary, as recorded in a trace. -/
inductive DriverCall where
  | initializeKDMAPIStream
  | terminateKDMAPIStream
  | resetKDMAPIStream
  | sendDirectData (data : Nat)
  | sendDirectDataNoBuf (data : Nat)
  | loadCustomSoundFontsList (buf : List Nat)
deriving DecidableEq

/-- The stream capability object (`pub struct KDMAPIStream`); its sole field
`binds` is a reference to the process-wide `KDMAPIBinds`, so the handle itself
carries no data in the model. -/
inductive KDMAPIStream where
  | mk
deriving DecidableEq

/-- `KDMAPIBinds::open_stream` (src/src/lib.rs:36-51).  Input: the driver
behaviour behind the resolved symbols and the current value of the
`is_stream_open` flag.  Output: the `Result`, the flag afterwards, and the
trace of driver calls made.  Faithful to the source: the `is_stream_open`
flag is loaded and checked, but never stored to on the success path. -/
def open_stream (d : Driver) (is_stream_open : Bool) :
    Except String KDMAPIStream × Bool × List DriverCall :=
  if is_stream_open then
    (Except.error "KDMAPI stream is already open", is_stream_open, [])
  else
    let result := d.initializeKDMAPIStream
    if result = 0 then
      (Except.error "Failed to initialize KDMAPI stream", is_stream_open,
        [DriverCall.initializeKDMAPIStream])
    else
      (Except.ok KDMAPIStream.mk, is_stream_open,
        [DriverCall.initializeKDMAPIStream])

/-- `KDMAPIBinds::is_kdmapi_available` (src/src/lib.rs:26-28). -/
def is_kdmapi_available (d : Driver) : Bool :=
  d.isKDMAPIAvailable

/-- `KDMAPIStream::reset` (src/src/lib.rs:104-108): calls
`ResetKDMAPIStream`; no return value, flag untouched. -/
def KDMAPIStream.reset (d : Driver) (is_stream_open : Bool) :
    Bool × List DriverCall :=
  (is_stream_open, [DriverCall.resetKDMAPIStream])

/-- `KDMAPIStream::send_direct_data` (src/src/lib.rs:111-113): forwards the
`u32` word and returns the driver's response verbatim. -/
def send_direct_data (d : Driver) (is_stream_open : Bool) (data : Nat) :
    Nat × Bool × List DriverCall :=
  (d.sendDirectData data, is_stream_open, [DriverCall.sendDirectData data])

/-- `KDMAPIStream::send_direct_data_no_buf` (src/src/lib.rs:116-118). -/
def send_direct_data_no_buf (d : Driver) (is_stream_open : Bool) (data : Nat) :
    Nat × Bool × List DriverCall :=
  (d.sendDirectDataNoBuf data, is_stream_open,
    [DriverCall.sendDirectDataNoBuf data])

/-- UTF-16 code units of one scalar value, as produced by
`OsStr::encode_wide` on Windows (`&str` holds Unicode scalar values, so the
encoding is plain UTF-16 with surrogate pairs above `0xFFFF`). -/
def utf16Units (c : Char) : List Nat :=
  let v := c.toNat
  if v < 0x10000 then [v]
  else
    let w := v - 0x10000
    [0xD800 + w / 0x400, 0xDC00 + w % 0x400]

/-- UTF-8 bytes of one scalar value: the bytes a Rust `&str` stores for it. -/
def utf8Bytes (c : Char) : List Nat :=
  let v := c.toNat
  if v < 0x80 then [v]
  else if v < 0x800 then [0xC0 + v / 0x40, 0x80 + v % 0x40]
  else if v < 0x10000 then
    [0xE0 + v / 0x1000, 0x80 + v / 0x40 % 0x40, 0x80 + v % 0x40]
  else
    [0xF0 + v / 0x40000, 0x80 + v / 0x1000 % 0x40,
      0x80 + v / 0x40 % 0x40, 0x80 + v % 0x40]

/-- The buffer built on Windows (src/src/lib.rs:121-125):
`OsStr::new(path).encode_wide().chain(Some(0)).collect()` — the UTF-16 code
units of the path followed by a single `0` terminator. -/
def encode_wide_z (path : String) : List Nat :=
  (path.data.map utf16Units).flatten ++ [0]

/-- The bytes at `path.as_ptr()` on non-Windows targets: the UTF-8 bytes of
the `&str`, with no terminator appended (the `cfg(windows)` re-binding of
`path` does not happen, so the original `&str` pointer is forwarded). -/
def str_bytes (path : String) : List Nat :=
  (path.data.map utf8Bytes).flatten

/-- The buffer whose pointer `load_custom_soundfonts_list` forwards to the
driver, per target platform. -/
def soundfontArg (os : OS) (path : String) : List Nat :=
  match os with
  | OS.windows => encode_wide_z path
  | OS.linux => str_bytes path
  | OS.macos => str_bytes path

/-- `KDMAPIStream::load_custom_soundfonts_list` (src/src/lib.rs:120-127):
builds the platform buffer, forwards its pointer, returns the driver's
boolean.  The flag is untouched. -/
def load_custom_soundfonts_list (os : OS) (d : Driver) (is_stream_open : Bool)
    (path : String) : Bool × Bool × List DriverCall :=
  let buf := soundfontArg os path
  (d.loadCustomSoundFontsList buf, is_stream_open,
    [DriverCall.loadCustomSoundFontsList buf])

/-- `impl Drop for KDMAPIStream` (src/src/lib.rs:130-139): calls
`TerminateKDMAPIStream` (its `i32` result discarded), then stores `false`
into `is_stream_open`.  Rust runs `drop` exactly once per handle on every
exit path; the model exposes that single run. -/
def KDMAPIStream.drop (d : Driver) (is_stream_open : Bool) :
    Bool × List DriverCall :=
  (false, [DriverCall.terminateKDMAPIStream])

/-- Errors of `libloading::Library::new`, kept abstract as their description. -/
abbrev LoadError := String

/-- A loaded shared library: which exported names it has, and the driver
behaviour behind them when resolution succeeds. -/
structure Library where
  hasSymbol : String → Bool
  driver : Driver

/-- `load_kdmapi_lib` (src/src/lib.rs:54-75), parametrised by the platform
and by the behaviour of `libloading::Library::new` on each name.  On Windows
it tries `"OmniMIDI\\OmniMIDI"` and, if that load fails, returns the result
of loading `"OmniMIDI"`; on Linux and macOS a single fixed filename. -/
def load_kdmapi_lib (os : OS) (libNew : String → Except LoadError Library) :
    Except LoadError Library :=
  match os with
  | OS.windows =>
    match libNew "OmniMIDI\\OmniMIDI" with
    | Except.ok lib => Except.ok lib
    | Except.error _ => libNew "OmniMIDI"
  | OS.linux => libNew "libOmniMIDI.so"
  | OS.macos => libNew "libOmniMIDI.dylib"

/-- The entry-point names resolved by `load_kdmapi_binds`, in the order the
field initialisers of the `KDMAPIBinds` literal run (src/src/lib.rs:80-88). -/
def requiredSymbols : List String :=
  ["IsKDMAPIAvailable", "InitializeKDMAPIStream", "TerminateKDMAPIStream",
    "ResetKDMAPIStream", "SendDirectData", "SendDirectDataNoBuf",
    "LoadCustomSoundFontsList"]

/-- Outcome of `load_kdmapi_binds`: a full binding table, the propagated
library-load error, or a panic — each `lib.get(...)` result is `.unwrap()`ed,
so the first absent symbol aborts instead of producing an `Err` value. -/
inductive BindOutcome where
  | ok (d : Driver)
  | libError (e : LoadError)
  | panicked (missing : String)

/-- `load_kdmapi_binds` (src/src/lib.rs:77-93).  On a load error the error is
propagated; on a loaded library each required symbol is resolved in order and
`.unwrap()`ed, so the first missing name panics and no binding table (partial
or otherwise) is produced; when all seven resolve, the table is built with
`is_stream_open` starting `false`. -/
def load_kdmapi_binds (lib : Except LoadError Library) : BindOutcome :=
  match lib with
  | Except.error e => BindOutcome.libError e
  | Except.ok l =>
    match requiredSymbols.find? (fun s => ! l.hasSymbol s) with
    | some s => BindOutcome.panicked s
    | none => BindOutcome.ok l.driver

/-- The process-wide registry cell behind `lazy_static!`'s `KDMAPI`
(src/src/lib.rs:141-146): models the once-initialisation semantics of the
`lazy_static` dependency — the cell is empty until the first access runs the
computation, and holds its value (success or failure alike) for the rest of
the process. -/
structure Registry where
  cached : Option BindOutcome

/-- The registry before any access: nothing computed yet. -/
def Registry.start : Registry := ⟨none⟩

/-- One access of the `KDMAPI` static: returns the cached outcome if present,
otherwise runs the load-and-bind computation, caches its result, and returns
it.  The third component counts how many times the computation ran. -/
def Registry.access (compute : Unit → BindOutcome) (r : Registry) :
    BindOutcome × Registry × Nat :=
  match r.cached with
  | some v => (v, r, 0)
  | none => (compute (), ⟨some (compute ())⟩, 1)

/-- A sequence of `n` accesses: the list of observed outcomes, the final
registry, and the total number of times the computation ran. -/
def Registry.accesses (compute : Unit → BindOutcome) :
    Nat → Registry → List BindOutcome × Registry × Nat
  | 0, r => ([], r, 0)
  | n + 1, r =>
    let step := Registry.access compute r
    let rest := Registry.accesses compute n step.2.1
    (step.1 :: rest.1, rest.2.1, step.2.2 + rest.2.2)

/-- The stream-scoped operations a caller can invoke on a live handle. -/
inductive StreamOp where
  | reset
  | sendDirectData (data : Nat)
  | sendDirectDataNoBuf (data : Nat)
  | loadCustomSoundfontsList (path : String)

/-- The `is_stream_open` flag after running one stream-scoped operation. -/
def streamOpFlag (os : OS) (d : Driver) (is_stream_open : Bool) :
    StreamOp → Bool
  | StreamOp.reset => (KDMAPIStream.reset d is_stream_open).1
  | StreamOp.sendDirectData data => (send_direct_data d is_stream_open data).2.1
  | StreamOp.sendDirectDataNoBuf data =>
    (send_direct_data_no_buf d is_stream_open data).2.1
  | StreamOp.loadCustomSoundfontsList path =>
    (load_custom_soundfonts_list os d is_stream_open path).2.1

/-- The `is_stream_open` flag after running a whole sequence of stream-scoped
operations in order. -/
def runStreamOps (os : OS) (d : Driver) (ops : List StreamOp)
    (is_stream_open : Bool) : Bool :=
  ops.foldl (streamOpFlag os d) is_stream_open

/-- A driver stub whose stream-init succeeds (nonzero). -/
def stubDriver : Driver where
  isKDMAPIAvailable := true
  initializeKDMAPIStream := 1
  terminateKDMAPIStream := 0
  sendDirectData := fun x => x + 1
  sendDirectDataNoBuf := fun x => x + 2
  loadCustomSoundFontsList := fun _ => true

/-- A driver stub whose stream-init reports failure (zero). -/
def stubDriverInitFails : Driver :=
  { stubDriver with initializeKDMAPIStream := 0 }

/-- A loaded library exposing every required symbol except
`LoadCustomSoundFontsList`. -/
def libMissingOne : Library where
  hasSymbol := fun s => s != "LoadCustomSoundFontsList"
  driver := stubDriver

/-! ## Theorems -/

/-- C1: the spec claims a successful `open_stream` sets the Stream Guard flag
to true so that a second `open_stream` fails as already-open; the code never
stores `true` into `is_stream_open`, so after a successful open the flag is
still `false` and a second open also succeeds — two live handles exist.  This
contradicts the source's own doc comment ("Errors if multiple streams are
opened in parallel"). -/
theorem open_stream_guard_never_set :
    open_stream stubDriver false =
      (Except.ok KDMAPIStream.mk, false, [DriverCall.initializeKDMAPIStream]) ∧
    open_stream stubDriver (open_stream stubDriver false).2.1 =
      (Except.ok KDMAPIStream.mk, false, [DriverCall.initializeKDMAPIStream]) := by
  exact ⟨rfl, rfl⟩

/-- C2: when the `is_stream_open` flag is already `true`, `open_stream`
returns the "already open" error, leaves the flag alone, and makes no driver
call at all — in particular `InitializeKDMAPIStream` is not called (empty
trace). -/
theorem open_stream_rejects_when_flag_set (d : Driver) :
    open_stream d true =
      (Except.error "KDMAPI stream is already open", true, []) := rfl

/-- C3: whenever the driver's `InitializeKDMAPIStream` returns 0,
`open_stream` (entered with the guard flag false, the only way the init call
is reached) returns the initialization-failed error, constructs no stream
handle, and leaves the flag false; a later `open_stream` against a driver
whose init returns nonzero succeeds. -/
theorem open_stream_init_failure_recoverable (d d' : Driver)
    (h : d.initializeKDMAPIStream = 0) (h' : d'.initializeKDMAPIStream ≠ 0) :
    open_stream d false =
      (Except.error "Failed to initialize KDMAPI stream", false,
        [DriverCall.initializeKDMAPIStream]) ∧
    (open_stream d' false).1 = Except.ok KDMAPIStream.mk := by
  constructor
  · simp [open_stream, h]
  · simp [open_stream, h']

/-- Witness for C3 at concrete stub drivers (init returns 0, then 1). -/
theorem open_stream_init_failure_recoverable_witness :
    open_stream stubDriverInitFails false =
      (Except.error "Failed to initialize KDMAPI stream", false,
        [DriverCall.initializeKDMAPIStream]) ∧
    (open_stream stubDriver false).1 = Except.ok KDMAPIStream.mk :=
  open_stream_init_failure_recoverable stubDriverInitFails stubDriver
    (by decide) (by decide)

/-- C4 counterexample: on a successfully loaded library that lacks the
`LoadCustomSoundFontsList` entry point, `load_kdmapi_binds` panics (the
`.unwrap()` aborts) — its outcome is `panicked`, not an error result value,
refuting the claim that the bind operation returns an explicit error and does
not panic. -/
theorem load_kdmapi_binds_missing_symbol_panics :
    load_kdmapi_binds (Except.ok libMissingOne) =
      BindOutcome.panicked "LoadCustomSoundFontsList" := by
  rfl

/-- C4 (amended): symbol binding is still all-or-nothing — for a successfully
loaded library missing at least one required entry-point name, the bind
aborts with a panic naming a missing required symbol (the first one in
resolution order), and no partial binding table is exposed. -/
theorem load_kdmapi_binds_all_or_nothing (l : Library)
    (h : ∃ s ∈ requiredSymbols, l.hasSymbol s = false) :
    ∃ s ∈ requiredSymbols, l.hasSymbol s = false ∧
      load_kdmapi_binds (Except.ok l) = BindOutcome.panicked s := by
  obtain ⟨s₀, hmem₀, hmiss₀⟩ := h
  have hsome : (requiredSymbols.find? (fun s => ! l.hasSymbol s)).isSome := by
    rw [List.find?_isSome]
    exact ⟨s₀, hmem₀, by simp [hmiss₀]⟩
  obtain ⟨s, hfind⟩ := Option.isSome_iff_exists.mp hsome
  refine ⟨s, List.mem_of_find?_eq_some hfind, ?_, ?_⟩
  · have := List.find?_some hfind
    simpa using this
  · simp [load_kdmapi_binds, hfind]

/-- Witness for C4's amended theorem at the concrete library missing
`LoadCustomSoundFontsList`. -/
theorem load_kdmapi_binds_all_or_nothing_witness :
    ∃ s ∈ requiredSymbols, libMissingOne.hasSymbol s = false ∧
      load_kdmapi_binds (Except.ok libMissingOne) = BindOutcome.panicked s :=
  load_kdmapi_binds_all_or_nothing libMissingOne (by decide)

/-- C5: `load_kdmapi_lib` tries the platform candidates in order.  On Windows
a successful load of "OmniMIDI\\OmniMIDI" wins, and on its failure the result
is exactly that of loading "OmniMIDI" (so when both fail, the second — last —
candidate's error is returned, with no further fallback); Linux and macOS
load a single fixed filename. -/
theorem load_kdmapi_lib_candidate_order
    (libNew : String → Except LoadError Library) :
    (∀ l, libNew "OmniMIDI\\OmniMIDI" = Except.ok l →
      load_kdmapi_lib OS.windows libNew = Except.ok l) ∧
    (∀ e, libNew "OmniMIDI\\OmniMIDI" = Except.error e →
      load_kdmapi_lib OS.windows libNew = libNew "OmniMIDI") ∧
    load_kdmapi_lib OS.linux libNew = libNew "libOmniMIDI.so" ∧
    load_kdmapi_lib OS.macos libNew = libNew "libOmniMIDI.dylib" := by
  refine ⟨fun l h => ?_, fun e h => ?_, rfl, rfl⟩
  · unfold load_kdmapi_lib
    rw [h]
  · unfold load_kdmapi_lib
    rw [h]

/-- An environment in which loading any library name fails, with a distinct
error per candidate. -/
def envBothFail : String → Except LoadError Library :=
  fun s =>
    if s = "OmniMIDI\\OmniMIDI" then Except.error "load e1"
    else if s = "OmniMIDI" then Except.error "load e2"
    else Except.error "other"

/-- Witness for C5: when both Windows candidates fail, the returned error is
the second candidate's. -/
theorem load_kdmapi_lib_candidate_order_witness :
    load_kdmapi_lib OS.windows envBothFail = Except.error "load e2" ∧
    load_kdmapi_lib OS.linux envBothFail = Except.error "other" := by
  have h := load_kdmapi_lib_candidate_order envBothFail
  exact ⟨(h.2.1 "load e1" rfl).trans rfl, h.2.2.1.trans rfl⟩

/-- A registry whose cell is already filled returns the cached value on every
access and never reruns the computation. -/
theorem Registry.accesses_cached (compute : Unit → BindOutcome)
    (v : BindOutcome) (n : Nat) :
    Registry.accesses compute n ⟨some v⟩ = (List.replicate n v, ⟨some v⟩, 0) := by
  induction n with
  | zero => rfl
  | succ n ih =>
    simp [Registry.accesses, Registry.access, ih, List.replicate]

/-- C6: the Binding Registry is idempotent.  Starting from the untouched
registry, any positive number of accesses all observe the identical outcome
(the one the load-and-bind computation produced, success or failure alike)
and the computation runs exactly once for the whole sequence — a cached
failure is returned to every later caller without a retry. -/
theorem kdmapi_registry_idempotent (compute : Unit → BindOutcome) (n : Nat) :
    (Registry.accesses compute (n + 1) Registry.start).1 =
      List.replicate (n + 1) (compute ()) ∧
    (Registry.accesses compute (n + 1) Registry.start).2.2 = 1 := by
  have h : Registry.accesses compute (n + 1) Registry.start =
      (compute () :: List.replicate n (compute ()),
        (⟨some (compute ())⟩ : Registry), 1) := by
    simp [Registry.accesses, Registry.access, Registry.start,
      Registry.accesses_cached]
  rw [h]
  exact ⟨by simp [List.replicate], rfl⟩

/-- C7: on non-Windows targets the pointer forwarded by
`load_custom_soundfonts_list` is `path.as_ptr()` of the `&str` — its UTF-8
bytes with NO trailing 0 — while the Windows branch does append the 0
terminator to the UTF-16 code units: at path "a" the Linux buffer is `[97]`,
not the null-terminated `[97, 0]` the spec requires. -/
theorem soundfont_arg_not_null_terminated_off_windows :
    soundfontArg OS.linux "a" = [97] ∧
    soundfontArg OS.macos "a" = [97] ∧
    soundfontArg OS.windows "a" = [97, 0] := by
  refine ⟨?_, ?_, ?_⟩ <;> rfl

/-- C8: `send_direct_data` and `send_direct_data_no_buf` return the driver's
32-bit response for the forwarded input unmodified, and forward exactly the
given input word to the corresponding entry point. -/
theorem send_direct_data_passthrough (d : Driver) (fl : Bool) (data : Nat)
    (h : data < 2 ^ 32) :
    send_direct_data d fl data =
      (d.sendDirectData data, fl, [DriverCall.sendDirectData data]) ∧
    send_direct_data_no_buf d fl data =
      (d.sendDirectDataNoBuf data, fl, [DriverCall.sendDirectDataNoBuf data]) :=
  ⟨rfl, rfl⟩

/-- Witness for C8 at a concrete 32-bit word and stub driver. -/
theorem send_direct_data_passthrough_witness :
    send_direct_data stubDriver false 7 =
      (stubDriver.sendDirectData 7, false, [DriverCall.sendDirectData 7]) ∧
    send_direct_data_no_buf stubDriver false 7 =
      (stubDriver.sendDirectDataNoBuf 7, false,
        [DriverCall.sendDirectDataNoBuf 7]) :=
  send_direct_data_passthrough stubDriver false 7 (by decide)

/-- C9: destruction of a stream handle calls `TerminateKDMAPIStream` exactly
once (its return value ignored — it does not appear in the outcome) and then
clears the guard flag to false, after which `open_stream` against a driver
whose init returns nonzero succeeds instead of failing as already-open.
Rust's drop semantics run this destructor exactly once per handle on every
exit path; the model states the effect of that single run. -/
theorem stream_drop_terminates_once_and_clears_guard (d d' : Driver)
    (fl : Bool) (h : d'.initializeKDMAPIStream ≠ 0) :
    KDMAPIStream.drop d fl = (false, [DriverCall.terminateKDMAPIStream]) ∧
    (KDMAPIStream.drop d fl).2.count DriverCall.terminateKDMAPIStream = 1 ∧
    (open_stream d' (KDMAPIStream.drop d fl).1).1 = Except.ok KDMAPIStream.mk := by
  refine ⟨rfl, rfl, ?_⟩
  simp [KDMAPIStream.drop, open_stream, h]

/-- Witness for C9: dropping a live handle, then reopening with the stub
driver, succeeds. -/
theorem stream_drop_terminates_once_and_clears_guard_witness :
    KDMAPIStream.drop stubDriver true =
      (false, [DriverCall.terminateKDMAPIStream]) ∧
    (KDMAPIStream.drop stubDriver true).2.count
      DriverCall.terminateKDMAPIStream = 1 ∧
    (open_stream stubDriver (KDMAPIStream.drop stubDriver true).1).1 =
      Except.ok KDMAPIStream.mk :=
  stream_drop_terminates_once_and_clears_guard stubDriver stubDriver true
    (by decide)

/-- Each single stream-scoped operation leaves the guard flag unchanged. -/
theorem streamOpFlag_preserves_flag (os : OS) (d : Driver) (fl : Bool)
    (op : StreamOp) : streamOpFlag os d fl op = fl := by
  cases op <;> rfl

/-- C10: the stream-scoped operations `reset`, `send_direct_data`,
`send_direct_data_no_buf` and `load_custom_soundfonts_list` leave the binding
state unchanged: the resolved symbol table is immutable by construction, and
the `is_stream_open` flag keeps its value across any sequence of such calls
in any order. -/
theorem stream_ops_preserve_binding_state (os : OS) (d : Driver)
    (ops : List StreamOp) (fl : Bool) :
    runStreamOps os d ops fl = fl := by
  induction ops generalizing fl with
  | nil => rfl
  | cons op rest ih =>
    show rest.foldl (streamOpFlag os d) (streamOpFlag os d fl op) = fl
    rw [streamOpFlag_preserves_flag]
    exact ih fl

end KdmapiRs
